import Mathlib

/-!
Shallow embedding of the `stopwatch` Go package (src/stopwatch.go).

Modelling conventions:
* `time.Time` values are modelled as `Int` nanoseconds since the epoch; the
  Go zero value `time.Time{}` (the "unset" sentinel tested by `IsZero`) is
  modelled by `Option Int` with `none` as the sentinel, so `stop = none`
  means the stopwatch is active.
* `time.Duration` (an `int64` of nanoseconds) is modelled as `Int`; the
  claims under study never exercise int64 overflow.
* Each method that reads the wall clock (`time.Now()`) takes the current
  time as an explicit `now : Int` parameter.
* Methods that mutate the receiver return the updated `Stopwatch` value;
  `LapWithDataAndTime` returns the pair (returned `Lap`, updated state).
* `map[string]interface{}` lap metadata is modelled as
  `Option (List (String × String))`, `none` standing for Go's `nil` map;
  the code only stores and returns it.
-/

namespace StopwatchGo

/-- Lap metadata: Go `map[string]interface{}`, `none` for a `nil` map. -/
abbrev LapData := Option (List (String × String))

/-- The `Lap` struct: one completed measured interval.  Its field layout is
taken from the uses in src/stopwatch.go (`lap.formatter`, `lap.state`,
`lap.duration`, `lap.data`). -/
structure Lap where
  formatter : Int → String
  state : String
  duration : Int
  data : LapData

/-- The `Stopwatch` struct from src/stopwatch.go (the `sync.RWMutex` is not
part of the data state; the locking discipline is modelled separately). -/
structure Stopwatch where
  start : Int
  stop : Option Int
  mark : Int
  laps : List Lap
  formatter : Int → String
  formattingMode : String

/-- Digit character for a value 0..9. -/
def digitChar (d : Nat) : Char := Char.ofNat (48 + d)

/-- Helper for Go's `fmtFrac` (time/time.go): formats the `prec` low decimal
digits of `v` as a fraction, omitting trailing zeros and the decimal point
when the fraction is all zeros; returns the fraction text and `v` with those
digits removed. -/
def fmtFracAux : Nat → Nat → String → Bool → String × Nat
  | 0, v, acc, pr => (if pr then "." ++ acc else acc, v)
  | i + 1, v, acc, pr =>
    let digit := v % 10
    let doPrint := pr || decide (digit ≠ 0)
    let acc2 := if doPrint then String.singleton (digitChar digit) ++ acc else acc
    fmtFracAux i (v / 10) acc2 doPrint

def fmtFrac (v : Nat) (prec : Nat) : String × Nat :=
  fmtFracAux prec v "" false

/-- Go's `time.Duration.String` (time/time.go), used as the package's default
formatter: renders a nanosecond count as e.g. `1h2m3.5s`, `12.345µs`, `0s`. -/
def durationString (d : Int) : String :=
  let u := d.natAbs
  let core :=
    if u < 1000000000 then
      if u = 0 then "0s"
      else if u < 1000 then toString u ++ "ns"
      else if u < 1000000 then
        let fr := fmtFrac u 3
        toString fr.2 ++ fr.1 ++ "µs"
      else
        let fr := fmtFrac u 6
        toString fr.2 ++ fr.1 ++ "ms"
    else
      let fr := fmtFrac u 9
      let secs := fr.2 % 60
      let rest := fr.2 / 60
      let s1 := toString secs ++ fr.1 ++ "s"
      if rest > 0 then
        let mins := rest % 60
        let hours := rest / 60
        let s2 := toString mins ++ "m" ++ s1
        if hours > 0 then toString hours ++ "h" ++ s2 else s2
      else s1
  if d < 0 then "-" ++ core else core

/-- `defaultFormatter` from src/stopwatch.go: `duration.String()`. -/
def defaultFormatter (d : Int) : String := durationString d

def FormattingModeJsonArray : String := "JSON_ARRAY"
def FormattingModeJsonSimpleObject : String := "JSON_OBJECT"
def FormattingModeJsonMsObject : String := "JSON_OBJECT_MS"
def defaultFormattingMode : String := FormattingModeJsonArray

/-- `defaultedFormattingMode` from src/stopwatch.go: empty mode falls back to
the default (array) mode, anything else passes through. -/
def defaultedFormattingMode (src : String) : String :=
  if src = "" then defaultFormattingMode else src

/-- `Reset(offset, active)`: `start = now − offset`; `stop` is the unset
sentinel when active, else `now`; `mark` and `laps` cleared.  `formatter`
and `formattingMode` are untouched. -/
def Stopwatch.Reset (s : Stopwatch) (offset : Int) (active : Bool) (now : Int) : Stopwatch :=
  { s with
    start := now - offset
    stop := if active then none else some now
    mark := 0
    laps := [] }

def Stopwatch.SetFormatter (s : Stopwatch) (formatter : Int → String) : Stopwatch :=
  { s with formatter := formatter }

def Stopwatch.SetFormattingMode (s : Stopwatch) (newMode : String) : Stopwatch :=
  { s with formattingMode := newMode }

/-- `New(offset, active)`: zero-value struct, then `Reset`, `SetFormatter`
with the default formatter and `SetFormattingMode` with the default mode. -/
def New (offset : Int) (active : Bool) (now : Int) : Stopwatch :=
  let sw : Stopwatch :=
    { start := 0, stop := none, mark := 0, laps := []
      formatter := fun _ => "", formattingMode := "" }
  ((sw.Reset offset active now).SetFormatter defaultFormatter).SetFormattingMode
    defaultFormattingMode

/-- `active()`: the stopwatch is counting iff `stop` is the zero sentinel. -/
def Stopwatch.active (s : Stopwatch) : Bool := s.stop.isNone

/-- `Stop()`: freeze at `now` when active, no-op when already stopped. -/
def Stopwatch.Stop (s : Stopwatch) (now : Int) : Stopwatch :=
  if s.active then { s with stop := some now } else s

/-- `Start()`: when stopped, shift `start` forward by `now − stop` and clear
`stop`; when already active, no-op. -/
def Stopwatch.Start (s : Stopwatch) (now : Int) : Stopwatch :=
  if s.active then s
  else
    match s.stop with
    | some st => { s with start := s.start + (now - st), stop := none }
    | none => s

/-- `ElapsedTime()`: `now − start` when active, else the frozen
`stop − start`. -/
def Stopwatch.ElapsedTime (s : Stopwatch) (now : Int) : Int :=
  match s.stop with
  | none => now - s.start
  | some st => st - s.start

/-- `ElapsedTimeFrom(now)`: like `ElapsedTime` with a caller-supplied `now`;
when stopped the supplied time is ignored. -/
def Stopwatch.ElapsedTimeFrom (s : Stopwatch) (now : Int) : Int :=
  match s.stop with
  | none => now - s.start
  | some st => st - s.start

/-- `LapTime()`: time since the last lap boundary. -/
def Stopwatch.LapTime (s : Stopwatch) (now : Int) : Int :=
  s.ElapsedTime now - s.mark

/-- `LapWithDataAndTime(now, state, data)`: the core recording operation.
Returns the new `Lap` together with the updated stopwatch. -/
def Stopwatch.LapWithDataAndTime (s : Stopwatch) (now : Int) (state : String)
    (data : LapData) : Lap × Stopwatch :=
  let elapsed := s.ElapsedTimeFrom now
  let lap : Lap :=
    { formatter := s.formatter, state := state, duration := elapsed - s.mark, data := data }
  (lap, { s with mark := elapsed, laps := s.laps ++ [lap] })

/-- `LapWithData(state, data)`: delegates with `now = time.Now()`. -/
def Stopwatch.LapWithData (s : Stopwatch) (now : Int) (state : String) (data : LapData) :=
  s.LapWithDataAndTime now state data

/-- `Lap(state)`: delegates with `data = nil`. -/
def Stopwatch.Lap (s : Stopwatch) (now : Int) (state : String) :=
  s.LapWithData now state none

/-- `Laps()`: a copy of the lap history (copying is identity in the pure
model). -/
def Stopwatch.Laps (s : Stopwatch) : List StopwatchGo.Lap := s.laps

/-- Zero-pad a value below 1000 to three decimal digits. -/
def pad3 (n : Nat) : String :=
  if n < 10 then "00" ++ toString n
  else if n < 100 then "0" ++ toString n
  else toString n

/-- The per-lap value of the ms-object mode in `String()`:
`fmt.Sprintf("%.3f", float64(lap.duration.Microseconds())/1000.0)`.
`Duration.Microseconds()` is `int64(d) / 1e3` (Go division truncates toward
zero, i.e. `Int.tdiv`).  The float64 quotient and `%.3f` rounding are
modelled by the exact 3-decimal rendering of `us / 1000`; this agrees with
the Go computation for every `|us| ≤ 2^53`, far beyond any realistic
duration. -/
def msValueString (d : Int) : String :=
  let us := Int.tdiv d 1000
  let sign := if us < 0 then "-" else ""
  sign ++ toString (us.natAbs / 1000) ++ "." ++ pad3 (us.natAbs % 1000)

/-- Modelled from the spec: the `Lap` type's own `String` method lives in a
repository file that is not under src/ (src/stopwatch.go only invokes
`v.String()` on each lap in array mode).  Per the spec, a lap "renders as
its own default representation: `label: formatted-duration` (plus any
metadata representation)". -/
def Lap.String (l : Lap) :=
  l.state ++ ": " ++ l.formatter l.duration ++
    (match l.data with
     | none => ""
     | some kvs =>
       " \x7b" ++ String.intercalate ", " (kvs.map fun kv => kv.1 ++ ": " ++ kv.2) ++ "\x7d")

/-- `formatAsObject`: joins the per-lap renderings with `", "` inside
braces. -/
def Stopwatch.formatAsObject (s : Stopwatch)
    (lapValueFormatter : StopwatchGo.Lap → String) : String :=
  "\x7b" ++ String.intercalate ", " (s.laps.map lapValueFormatter) ++ "\x7d"

/-- `String()` from src/stopwatch.go: dispatches on the defaulted formatting
mode; the simple-object and ms-object modes render `"label":value` pairs in
braces, and the array mode (also the `default` arm of the switch) renders
`[lap1, lap2, ...]` using each lap's own `String`. -/
def Stopwatch.String (s : Stopwatch) :=
  let mode := defaultedFormattingMode s.formattingMode
  if mode = FormattingModeJsonSimpleObject then
    s.formatAsObject fun lap => "\"" ++ lap.state ++ "\":\"" ++ lap.formatter lap.duration ++ "\""
  else if mode = FormattingModeJsonMsObject then
    s.formatAsObject fun lap => "\"" ++ lap.state ++ "\":" ++ msValueString lap.duration
  else
    "[" ++ String.intercalate ", " (s.laps.map Lap.String) ++ "]"

/-- The exported operations of the package, for stating the locking
discipline of claim C9. -/
inductive StopwatchOp
  | reset
  | start
  | stop
  | lap
  | lapWithData
  | lapWithDataAndTime
  | setFormatter
  | setFormattingMode
  | elapsedTime
  | elapsedTimeFrom
  | lapTime
  | laps
  | string
  | marshalJSON
deriving DecidableEq

/-- Lock acquisition modes of the `sync.RWMutex`: exclusive (`Lock`),
shared (`RLock`), or no acquisition at all. -/
inductive LockAcq
  | exclusive
  | shared
  | nolock
deriving DecidableEq

/-- Which lock acquisition appears in each method body of src/stopwatch.go:
`s.Lock()` is exclusive, `s.RLock()` is shared.  `ElapsedTime` and
`ElapsedTimeFrom` contain no lock call; `Lap`, `LapWithData` and
`MarshalJSON` also contain none themselves and only delegate. -/
def methodLock : StopwatchOp → LockAcq
  | .reset => .exclusive
  | .start => .exclusive
  | .stop => .exclusive
  | .lapWithDataAndTime => .exclusive
  | .setFormatter => .exclusive
  | .setFormattingMode => .exclusive
  | .lapTime => .shared
  | .laps => .shared
  | .string => .shared
  | .lap => .nolock
  | .lapWithData => .nolock
  | .marshalJSON => .nolock
  | .elapsedTime => .nolock
  | .elapsedTimeFrom => .nolock

/-- The lock an external call to each operation ends up holding, closing the
delegations `Lap → LapWithData → LapWithDataAndTime` and
`MarshalJSON → String`. -/
def effectiveLock : StopwatchOp → LockAcq
  | .lap => methodLock .lapWithDataAndTime
  | .lapWithData => methodLock .lapWithDataAndTime
  | .marshalJSON => methodLock .string
  | op => methodLock op

/-- Run a list of `LapWithDataAndTime` recordings (reference time, label,
data) in order, keeping the evolving stopwatch state. -/
def lapInputsApply (s : Stopwatch) (inputs : List (Int × String × LapData)) : Stopwatch :=
  inputs.foldl (fun sw i => (sw.LapWithDataAndTime i.1 i.2.1 i.2.2).2) s

/-- The sum of the durations of the recorded laps. -/
def lapsDurationSum (s : Stopwatch) : Int := (s.laps.map Lap.duration).sum

theorem lapsDurationSum_lap (s : Stopwatch) (now : Int) (label : String) (d : LapData) :
    lapsDurationSum (s.LapWithDataAndTime now label d).2 =
      lapsDurationSum s + (s.ElapsedTimeFrom now - s.mark) := by
  simp [lapsDurationSum, Stopwatch.LapWithDataAndTime]

theorem lapInputsApply_sum_sub_mark (inputs : List (Int × String × LapData)) :
    ∀ s : Stopwatch,
      lapsDurationSum (lapInputsApply s inputs) - (lapInputsApply s inputs).mark =
        lapsDurationSum s - s.mark := by
  induction inputs with
  | nil => intro s; rfl
  | cons i rest ih =>
    intro s
    have h1 : lapInputsApply s (i :: rest) =
        lapInputsApply (s.LapWithDataAndTime i.1 i.2.1 i.2.2).2 rest := rfl
    have h2 : (s.LapWithDataAndTime i.1 i.2.1 i.2.2).2.mark = s.ElapsedTimeFrom i.1 := rfl
    rw [h1, ih, lapsDurationSum_lap, h2]
    ring

end StopwatchGo

namespace StopwatchGo

/-- C1: `LapWithDataAndTime` computes `elapsed = ElapsedTimeFrom now`,
returns a `Lap` with `duration = elapsed − mark`, the given label, the given
data and the stopwatch's current formatter, then advances `mark` to
`elapsed` and appends the new lap as the last element of the history,
leaving all other laps and all other fields unchanged; `Lap` and
`LapWithData` delegate to it with `data = nil` resp. unchanged data and the
current time. -/
theorem lapWithDataAndTime_spec (s : Stopwatch) (now : Int) (label : String)
    (data : LapData) :
    (s.LapWithDataAndTime now label data).1.duration = s.ElapsedTimeFrom now - s.mark ∧
    (s.LapWithDataAndTime now label data).1.state = label ∧
    (s.LapWithDataAndTime now label data).1.data = data ∧
    (s.LapWithDataAndTime now label data).1.formatter = s.formatter ∧
    (s.LapWithDataAndTime now label data).2.mark = s.ElapsedTimeFrom now ∧
    (s.LapWithDataAndTime now label data).2.laps =
      s.laps ++ [(s.LapWithDataAndTime now label data).1] ∧
    (s.LapWithDataAndTime now label data).2.start = s.start ∧
    (s.LapWithDataAndTime now label data).2.stop = s.stop ∧
    (s.LapWithDataAndTime now label data).2.formatter = s.formatter ∧
    (s.LapWithDataAndTime now label data).2.formattingMode = s.formattingMode ∧
    (∀ (t : Int) (lbl : String), s.Lap t lbl = s.LapWithDataAndTime t lbl none) ∧
    (∀ (t : Int) (lbl : String) (d : LapData),
      s.LapWithData t lbl d = s.LapWithDataAndTime t lbl d) :=
  ⟨rfl, rfl, rfl, rfl, rfl, rfl, rfl, rfl, rfl, rfl,
    fun _ _ => rfl, fun _ _ _ => rfl⟩

/-- C2: starting from `mark = 0` with an empty history and recording any
non-empty sequence of laps with no intervening `Reset`, the sum of all
recorded lap durations equals the elapsed time (`ElapsedTimeFrom` of the
last lap's reference time) at the moment the last lap was recorded. -/
theorem lap_durations_sum_eq_elapsed (s : Stopwatch)
    (init : List (Int × String × LapData)) (last : Int × String × LapData)
    (hmark : s.mark = 0) (hlaps : s.laps = []) :
    lapsDurationSum (lapInputsApply s (init ++ [last])) =
      (lapInputsApply s init).ElapsedTimeFrom last.1 := by
  have hfold : lapInputsApply s (init ++ [last]) =
      ((lapInputsApply s init).LapWithDataAndTime last.1 last.2.1 last.2.2).2 := by
    simp [lapInputsApply, List.foldl_append]
  have hs0 : lapsDurationSum s = 0 := by simp [lapsDurationSum, hlaps]
  have hinv := lapInputsApply_sum_sub_mark init s
  rw [hs0, hmark] at hinv
  rw [hfold, lapsDurationSum_lap]
  omega

/-- C2 witness: two concrete lap recordings at reference times 3 and 10 on a
fresh active stopwatch; the recorded durations sum to the elapsed time at
the second recording. -/
theorem lap_durations_sum_eq_elapsed_witness :
    lapsDurationSum (lapInputsApply (New 0 true 0)
        ([((3 : Int), "a", (none : LapData))] ++ [((10 : Int), "b", (none : LapData))])) =
      (lapInputsApply (New 0 true 0) [((3 : Int), "a", (none : LapData))]).ElapsedTimeFrom 10 :=
  lap_durations_sum_eq_elapsed (New 0 true 0)
    [((3 : Int), "a", (none : LapData))] ((10 : Int), "b", (none : LapData)) rfl rfl

/-- C3: `Start` at time `now` on a stopped stopwatch (`stop = some st`)
shifts `start` forward by exactly `now − st`, clears `stop` to the unset
sentinel, and the elapsed time immediately after resuming equals the
elapsed time frozen at the moment of `Stop`, however long the pause was. -/
theorem start_resumes_preserving_elapsed (s : Stopwatch) (st now t : Int)
    (h : s.stop = some st) :
    (s.Start now).start = s.start + (now - st) ∧
    (s.Start now).stop = none ∧
    (s.Start now).ElapsedTime now = s.ElapsedTime t := by
  have ha : s.active = false := by simp [Stopwatch.active, h]
  refine ⟨?_, ?_, ?_⟩
  · simp [Stopwatch.Start, ha, h]
  · simp [Stopwatch.Start, ha, h]
  · simp [Stopwatch.Start, ha, h, Stopwatch.ElapsedTime]
    ring

/-- C3 witness: a stopwatch constructed stopped at time 7 and resumed at
time 10 keeps its frozen elapsed time. -/
theorem start_resumes_preserving_elapsed_witness :
    ((New 0 false 7).Start 10).start = (New 0 false 7).start + (10 - 7) ∧
    ((New 0 false 7).Start 10).stop = none ∧
    ((New 0 false 7).Start 10).ElapsedTime 10 = (New 0 false 7).ElapsedTime 42 :=
  start_resumes_preserving_elapsed (New 0 false 7) 7 10 42 rfl

/-- C4 counterexample: on a fresh active stopwatch, a lap at reference time
5 sets `mark = 5`; a further `LapWithDataAndTime` with the earlier reference
time 3 sets `mark = 3`, strictly decreasing it without any `Reset` — so
`mark` is not monotonically non-decreasing across Lap-family calls. -/
theorem mark_decreases_counterexample :
    ((((New 0 true 0).LapWithDataAndTime 5 "a" none).2).LapWithDataAndTime 3 "b" none).2.mark <
      (((New 0 true 0).LapWithDataAndTime 5 "a" none).2).mark := by
  decide

/-- C4 amended: a Lap-family call moves `mark` to the current elapsed time,
so `mark` is non-decreasing whenever the reference time yields
`elapsed ≥ mark` (equivalently, a non-negative lap duration) — but a
reference time that precedes the previous mark decreases it.  `Start` and
`Stop` never change `mark`, and `Reset` sets it to zero. -/
theorem mark_monotone_amended (s : Stopwatch) (now t o : Int) (label : String)
    (data : LapData) (a : Bool)
    (h : s.mark ≤ s.ElapsedTimeFrom now) :
    s.mark ≤ (s.LapWithDataAndTime now label data).2.mark ∧
    (s.LapWithDataAndTime now label data).2.mark = s.ElapsedTimeFrom now ∧
    (s.Start t).mark = s.mark ∧
    (s.Stop t).mark = s.mark ∧
    (s.Reset o a t).mark = 0 := by
  refine ⟨h, rfl, ?_, ?_, rfl⟩
  · cases hstop : s.stop <;> simp [Stopwatch.Start, Stopwatch.active, hstop]
  · cases hstop : s.stop <;> simp [Stopwatch.Stop, Stopwatch.active, hstop]

/-- C4 amended witness: on a fresh active stopwatch a lap at reference time
5 does not decrease `mark`, `Start`/`Stop` leave it unchanged, `Reset`
zeroes it. -/
theorem mark_monotone_amended_witness :
    (New 0 true 0).mark ≤ ((New 0 true 0).LapWithDataAndTime 5 "a" none).2.mark ∧
    ((New 0 true 0).LapWithDataAndTime 5 "a" none).2.mark =
      (New 0 true 0).ElapsedTimeFrom 5 ∧
    ((New 0 true 0).Start 9).mark = (New 0 true 0).mark ∧
    ((New 0 true 0).Stop 9).mark = (New 0 true 0).mark ∧
    ((New 0 true 0).Reset 2 false 9).mark = 0 :=
  mark_monotone_amended (New 0 true 0) 5 9 2 "a" none false (by decide)

/-- C5: `New o false` at time `now` sets `start = now − o` and
`stop = some now`, so the elapsed time immediately after construction is
exactly `o`, and a negative offset yields a negative elapsed time. -/
theorem new_inactive_offset (o now t : Int) :
    (New o false now).start = now - o ∧
    (New o false now).stop = some now ∧
    (New o false now).ElapsedTime t = o ∧
    (o < 0 → (New o false now).ElapsedTime t < 0) := by
  refine ⟨rfl, rfl, ?_, ?_⟩
  · show now - (now - o) = o
    ring
  · intro h
    show now - (now - o) < 0
    omega

/-- C5 witness: constructing with offset −3 (stopped) at time 10 gives
`start = 13`, `stop = 10`, and elapsed time −3 < 0. -/
theorem new_inactive_offset_witness :
    (New (-3) false 10).start = 10 - (-3) ∧
    (New (-3) false 10).stop = some 10 ∧
    (New (-3) false 10).ElapsedTime 99 = -3 ∧
    (New (-3) false 10).ElapsedTime 99 < 0 :=
  ⟨(new_inactive_offset (-3) 10 99).1, (new_inactive_offset (-3) 10 99).2.1,
    (new_inactive_offset (-3) 10 99).2.2.1,
    (new_inactive_offset (-3) 10 99).2.2.2 (by decide)⟩

/-- C6: `Stop` on an already-stopped stopwatch and `Start` on an
already-active stopwatch are no-ops; hence `Stop();Stop()` equals a single
`Stop()`, and `Start();Start()` from the active state equals doing
nothing. -/
theorem stop_start_idempotent (s sa sw : Stopwatch) (st t t1 t2 : Int)
    (hs : s.stop = some st) (ha : sa.stop = none) :
    s.Stop t = s ∧
    sa.Start t = sa ∧
    (sw.Stop t1).Stop t2 = sw.Stop t1 ∧
    (sa.Start t1).Start t2 = sa := by
  have hsa : sa.active = true := by simp [Stopwatch.active, ha]
  refine ⟨?_, ?_, ?_, ?_⟩
  · simp [Stopwatch.Stop, Stopwatch.active, hs]
  · simp [Stopwatch.Start, hsa]
  · cases hsw : sw.stop <;>
      simp [Stopwatch.Stop, Stopwatch.active, hsw]
  · simp [Stopwatch.Start, hsa]

/-- C6 witness: a stopwatch constructed stopped at time 7 and one
constructed active; repeated `Stop` resp. `Start` are no-ops. -/
theorem stop_start_idempotent_witness :
    (New 0 false 7).Stop 11 = New 0 false 7 ∧
    (New 0 true 0).Start 11 = New 0 true 0 ∧
    ((New 0 false 7).Stop 11).Stop 12 = (New 0 false 7).Stop 11 ∧
    ((New 0 true 0).Start 11).Start 12 = New 0 true 0 :=
  stop_start_idempotent (New 0 false 7) (New 0 true 0) (New 0 false 7) 7 11 11 12 rfl rfl

/-- C7: any formatting mode other than the three known tags — the empty
string included — makes `String()` produce exactly the output of the
`JSON_ARRAY` mode. -/
theorem unrecognized_mode_renders_as_array (s : Stopwatch) (m : String)
    (h1 : m ≠ FormattingModeJsonArray) (h2 : m ≠ FormattingModeJsonSimpleObject)
    (h3 : m ≠ FormattingModeJsonMsObject) :
    (s.SetFormattingMode m).String =
      (s.SetFormattingMode FormattingModeJsonArray).String := by
  by_cases he : m = ""
  · subst he
    simp [Stopwatch.String, Stopwatch.SetFormattingMode, defaultedFormattingMode,
      defaultFormattingMode, FormattingModeJsonArray, FormattingModeJsonSimpleObject,
      FormattingModeJsonMsObject]
  · have h2a : m ≠ "JSON_OBJECT" := h2
    have h3a : m ≠ "JSON_OBJECT_MS" := h3
    simp [Stopwatch.String, Stopwatch.SetFormattingMode, defaultedFormattingMode,
      defaultFormattingMode, he, h2a, h3a, FormattingModeJsonArray,
      FormattingModeJsonSimpleObject, FormattingModeJsonMsObject]

/-- C7 witness: on a concrete stopwatch with one recorded lap, the empty
mode renders exactly like the `JSON_ARRAY` mode. -/
theorem unrecognized_mode_renders_as_array_witness :
    ((((New 0 true 0).LapWithDataAndTime 5 "a" none).2).SetFormattingMode "").String =
      ((((New 0 true 0).LapWithDataAndTime 5 "a" none).2).SetFormattingMode
        FormattingModeJsonArray).String :=
  unrecognized_mode_renders_as_array (((New 0 true 0).LapWithDataAndTime 5 "a" none).2) ""
    (by decide) (by decide) (by decide)

set_option maxHeartbeats 1000000 in
set_option maxRecDepth 10000 in
/-- Padding a fraction value below 1000 yields exactly the three zero-padded
decimal digits of that value. -/
theorem pad3_digits : ∀ r : Nat, r < 1000 →
    (pad3 r).length = 3 ∧
    (pad3 r).data = [digitChar (r / 100), digitChar (r / 10 % 10), digitChar (r % 10)] := by
  decide

/-- C8: in the ms-object mode the whole stopwatch renders as an object in
which every lap's value is `msValueString` of its duration; for every
duration, that value is the sign, then the decimal of the whole number of
microseconds divided by 1000, then a decimal point followed by exactly 3
digits — the zero-padded decimal digits of microseconds mod 1000; in
particular a lap of duration exactly 1,234,567 microseconds renders its
value as the text `1234.567`. -/
theorem ms_mode_lap_rendering (s : Stopwatch) (d : Int)
    (hmode : s.formattingMode = FormattingModeJsonMsObject) :
    s.String = "\x7b" ++ String.intercalate ", "
        (s.laps.map fun l => "\"" ++ l.state ++ "\":" ++ msValueString l.duration) ++ "\x7d" ∧
    (∃ frac : String,
      msValueString d =
        (if Int.tdiv d 1000 < 0 then "-" else "")
          ++ toString ((Int.tdiv d 1000).natAbs / 1000) ++ "." ++ frac ∧
      frac.length = 3 ∧
      frac.data = [digitChar ((Int.tdiv d 1000).natAbs % 1000 / 100),
        digitChar ((Int.tdiv d 1000).natAbs % 1000 / 10 % 10),
        digitChar ((Int.tdiv d 1000).natAbs % 1000 % 10)]) ∧
    msValueString 1234567000 = "1234.567" := by
  refine ⟨?_, ?_, by decide⟩
  · simp [Stopwatch.String, defaultedFormattingMode, defaultFormattingMode,
      FormattingModeJsonMsObject, FormattingModeJsonSimpleObject, FormattingModeJsonArray,
      Stopwatch.formatAsObject, hmode]
  · refine ⟨pad3 ((Int.tdiv d 1000).natAbs % 1000), rfl, ?_, ?_⟩
    · exact (pad3_digits ((Int.tdiv d 1000).natAbs % 1000)
        (Nat.mod_lt _ (by decide))).1
    · exact (pad3_digits ((Int.tdiv d 1000).natAbs % 1000)
        (Nat.mod_lt _ (by decide))).2

/-- C8 witness: a concrete stopwatch in `JSON_OBJECT_MS` mode whose single
lap lasted exactly 1,234,567 microseconds renders as
`\x7b"x":1234.567\x7d`. -/
theorem ms_mode_lap_rendering_witness :
    (Stopwatch.mk 0 none 0 [Lap.mk defaultFormatter "x" 1234567000 none]
        defaultFormatter "JSON_OBJECT_MS").String = "\x7b\"x\":1234.567\x7d" := by
  have h := ms_mode_lap_rendering
    (Stopwatch.mk 0 none 0 [Lap.mk defaultFormatter "x" 1234567000 none]
      defaultFormatter "JSON_OBJECT_MS") 1234567000 rfl
  rw [h.1]
  rfl

/-- C9 counterexample: the exported `ElapsedTime` method performs no lock
acquisition at all in src/stopwatch.go — neither `RLock` nor `Lock` — so an
external call to it does not hold shared (reader) access, contrary to the
claim; the same holds for `ElapsedTimeFrom`. -/
theorem elapsedTime_takes_no_lock :
    effectiveLock StopwatchOp.elapsedTime ≠ LockAcq.shared ∧
    methodLock StopwatchOp.elapsedTime = LockAcq.nolock ∧
    effectiveLock StopwatchOp.elapsedTimeFrom ≠ LockAcq.shared ∧
    methodLock StopwatchOp.elapsedTimeFrom = LockAcq.nolock := by
  decide

/-- C9 amended: `LapTime`, `Laps` and `String` (and `MarshalJSON`, which
delegates to `String`) acquire shared access for their full duration;
`Reset`, `Start`, `Stop`, `LapWithDataAndTime` (and `Lap`/`LapWithData`,
which delegate to it), `SetFormatter` and `SetFormattingMode` acquire
exclusive access; but `ElapsedTime` and `ElapsedTimeFrom` acquire no lock
at all, even when called externally. -/
theorem locking_discipline :
    methodLock StopwatchOp.lapTime = LockAcq.shared ∧
    methodLock StopwatchOp.laps = LockAcq.shared ∧
    methodLock StopwatchOp.string = LockAcq.shared ∧
    effectiveLock StopwatchOp.marshalJSON = LockAcq.shared ∧
    methodLock StopwatchOp.reset = LockAcq.exclusive ∧
    methodLock StopwatchOp.start = LockAcq.exclusive ∧
    methodLock StopwatchOp.stop = LockAcq.exclusive ∧
    methodLock StopwatchOp.lapWithDataAndTime = LockAcq.exclusive ∧
    effectiveLock StopwatchOp.lap = LockAcq.exclusive ∧
    effectiveLock StopwatchOp.lapWithData = LockAcq.exclusive ∧
    methodLock StopwatchOp.setFormatter = LockAcq.exclusive ∧
    methodLock StopwatchOp.setFormattingMode = LockAcq.exclusive ∧
    methodLock StopwatchOp.elapsedTime = LockAcq.nolock ∧
    methodLock StopwatchOp.elapsedTimeFrom = LockAcq.nolock := by
  decide

/-- C10: on a stopped stopwatch whose `mark` already equals the frozen
elapsed time `stop − start` (as after recording a lap while stopped), every
further Lap-family call returns a lap of duration exactly zero, for any
label, data and reference time; and the resulting state again satisfies the
same two conditions, so all subsequent laps before a `Start` or `Reset` are
zero as well. -/
theorem stopped_after_lap_zero_duration (s : Stopwatch) (st now : Int)
    (label : String) (data : LapData)
    (hstop : s.stop = some st) (hmark : s.mark = st - s.start) :
    (s.LapWithDataAndTime now label data).1.duration = 0 ∧
    (s.LapWithDataAndTime now label data).2.stop = some st ∧
    (s.LapWithDataAndTime now label data).2.mark =
      st - (s.LapWithDataAndTime now label data).2.start := by
  refine ⟨?_, ?_, ?_⟩
  · show s.ElapsedTimeFrom now - s.mark = 0
    simp [Stopwatch.ElapsedTimeFrom, hstop, hmark]
  · show s.stop = some st
    exact hstop
  · show s.ElapsedTimeFrom now = st - s.start
    simp [Stopwatch.ElapsedTimeFrom, hstop]

/-- C10 witness: a stopwatch stopped at time 5 that already recorded a lap
while stopped (`mark = 5 = stop − start`) returns a zero-duration lap for a
further recording at the unrelated reference time 99. -/
theorem stopped_after_lap_zero_duration_witness :
    ((((New 0 true 0).Stop 5).LapWithDataAndTime 99 "a" none).2.LapWithDataAndTime
        123 "b" (some [("k", "v")])).1.duration = 0 ∧
    ((((New 0 true 0).Stop 5).LapWithDataAndTime 99 "a" none).2.LapWithDataAndTime
        123 "b" (some [("k", "v")])).2.stop = some 5 ∧
    ((((New 0 true 0).Stop 5).LapWithDataAndTime 99 "a" none).2.LapWithDataAndTime
        123 "b" (some [("k", "v")])).2.mark =
      5 - ((((New 0 true 0).Stop 5).LapWithDataAndTime 99 "a" none).2.LapWithDataAndTime
        123 "b" (some [("k", "v")])).2.start :=
  stopped_after_lap_zero_duration
    (((New 0 true 0).Stop 5).LapWithDataAndTime 99 "a" none).2 5 123 "b"
    (some [("k", "v")]) rfl (by decide)

end StopwatchGo
